import Mathlib

/-!
Shallow embedding of the food shelf-life estimator (`src/app.py`).

Numbers are modelled by `ℚ` (the Python code computes with float literals
such as `0.75` and `0.5`; all the properties at stake are exact arithmetic
relations). Python dictionaries coming from the JSON dataset are modelled
by association lists with `List.lookup`. An exception raised by a Python
function is modelled by `Except.error`.
-/

/-- A parsed JSON value, as produced by `json.load` in `load_rules`. -/
inductive Json where
  | null : Json
  | bool (b : Bool) : Json
  | num (q : ℚ) : Json
  | str (s : String) : Json
  | arr (elems : List Json) : Json
  | obj (fields : List (String × Json)) : Json

/-- Subscripting `j[k]` on a parsed JSON value: a key lookup when `j` is an
object, and a failure (modelled as `none`) otherwise, matching the Python
`KeyError`/`TypeError` on `rules["foods"]` etc. -/
def Json.getKey : Json → String → Option Json
  | .obj fields, k => fields.lookup k
  | _, _ => none

/-- Outcome of opening and JSON-parsing the rules file: the file may be
unreadable, its contents may fail to parse, or parsing yields a value. -/
inductive LoadSource where
  | unreadable : LoadSource
  | unparsable : LoadSource
  | parsed (j : Json) : LoadSource

/-- The `DatasetLoadError` of the spec: any exception escaping the loading code
(lines 11-19 of `app.py`): `OSError` from `open`, `json.JSONDecodeError`
from `json.load`, or `KeyError`/`TypeError` from the top-level key
extraction `rules["foods"]`, `rules["modifiers"]`, `rules["sensory_flags"]`. -/
inductive DatasetLoadError where
  | loadFailed : DatasetLoadError
deriving DecidableEq

/-- The bindings produced by the loading code: the raw parsed dataset and
the three top-level mappings extracted from it (lines 16-19 of `app.py`). -/
structure LoadedRules where
  rules : Json
  foods : Json
  modifiers : Json
  sensory_flags : Json

/-- Lines 11-19 of `app.py`: `load_rules` opens and parses the file, then
the module binds `foods = rules["foods"]`, `modifiers = rules["modifiers"]`,
`sensory_flags = rules["sensory_flags"]`. Any failure along the way is a
dataset-load failure. -/
def load_rules : LoadSource → Except DatasetLoadError LoadedRules
  | .unreadable => .error .loadFailed
  | .unparsable => .error .loadFailed
  | .parsed j =>
    match j.getKey "foods", j.getKey "modifiers", j.getKey "sensory_flags" with
    | some f, some m, some s => .ok ⟨j, f, m, s⟩
    | _, _, _ => .error .loadFailed

/-- One food entry of the dataset (`rules["foods"][key]`). -/
structure FoodEntry where
  states : List String
  storages : List String
  shelf_life_hours : List (String × List (String × ℚ))
deriving DecidableEq

/-- The in-memory dataset after loading, with the typed shape the estimator
actually reads: `foods`, `modifiers` (key → factor) and `sensory_flags`
(key → display label). -/
structure RulesDataset where
  foods : List (String × FoodEntry)
  modifiers : List (String × ℚ)
  sensory_flags : List (String × String)
deriving DecidableEq

/-- The dictionary returned by `compute_estimate` (lines 65-70 of `app.py`). -/
structure EstimateResult where
  base_hours : ℚ
  lower_hours : ℚ
  upper_hours : ℚ
  risk : String
deriving DecidableEq

/-- The exception `compute_estimate` can raise: `foods[food_name]` on line 36
raises a `KeyError` when the food key is absent; the spec names this error
path `UnknownFoodError`. -/
inductive EstimateError where
  | unknownFood : EstimateError
deriving DecidableEq

/-- Line 38 of `app.py`: `shelf.get(state, {}).get(storage)` — the two-level
lookup of the base hours, `none` when either level is missing. -/
def shelf_base (food : FoodEntry) (state storage : String) : Option ℚ :=
  ((food.shelf_life_hours.lookup state).getD []).lookup storage

/-- The body of the loop on lines 43-46 of `app.py`: `factor =
modifiers.get(m)`, then `if factor: multiplier *= factor`. An absent key
gives `None`, which is falsy, and a factor equal to `0` is falsy too; both
leave the multiplier unchanged. -/
def mod_step (ds : RulesDataset) (multiplier : ℚ) (m : String) : ℚ :=
  match ds.modifiers.lookup m with
  | some factor => if factor ≠ 0 then multiplier * factor else multiplier
  | none => multiplier

/-- Lines 42-46 of `app.py`: the modifier multiplier. Starts at `1.0` and
folds the loop body over the selected keys in order. -/
def multiplier_of (ds : RulesDataset) (selected_mod_keys : List String) : ℚ :=
  selected_mod_keys.foldl (mod_step ds) 1

/-- The effective contribution of one selected key to the multiplier: the
looked-up factor when the lookup succeeds and the factor is non-zero, and
the no-op factor `1` otherwise. -/
def eff_factor (ds : RulesDataset) (m : String) : ℚ :=
  match ds.modifiers.lookup m with
  | some factor => if factor ≠ 0 then factor else 1
  | none => 1

/-- Lines 35-70 of `app.py`: `compute_estimate`. Resolves the food (raising
on an unknown key), looks up the base hours (returning `None` when the
state/storage combination is absent), applies the modifier multiplier, and
builds the conservative window and risk tier. -/
def compute_estimate (ds : RulesDataset) (food_name state storage : String)
    (selected_mod_keys : List String) : Except EstimateError (Option EstimateResult) :=
  match ds.foods.lookup food_name with
  | none => .error .unknownFood
  | some food =>
    match shelf_base food state storage with
    | none => .ok none
    | some base_hours =>
      let est_hours := base_hours * multiplier_of ds selected_mod_keys
      let lower₀ := est_hours * 0.75
      let upper₀ := est_hours
      let lower := if base_hours ≤ 6 then est_hours * 0.5 else lower₀
      let upper := if upper₀ > 24 * 365 then (24 * 365 : ℚ) else upper₀
      let risk :=
        if upper ≤ 6 then "High perishability"
        else if upper ≤ 72 then "Moderate perishability"
        else "Low perishability"
      .ok (some ⟨base_hours, lower, upper, risk⟩)

/-- What the results section displays after the estimate button is clicked. -/
inductive Outcome where
  | discard : Outcome
  | noData : Outcome
  | shown (r : EstimateResult) : Outcome
  | failure (e : EstimateError) : Outcome
deriving DecidableEq

/-- Lines 153-171 of `app.py`: the branch run when the estimate button is
clicked. If any sensory flag key is selected (`if selected_sensory_keys:`,
truthy exactly when the list is non-empty) the discard directive is shown;
otherwise `compute_estimate` runs and its result (or the no-data warning)
is rendered. -/
def on_estimate_clicked (ds : RulesDataset) (food_choice state_choice storage_choice : String)
    (selected_mod_keys selected_sensory_keys : List String) : Outcome :=
  if selected_sensory_keys ≠ [] then .discard
  else
    match compute_estimate ds food_choice state_choice storage_choice selected_mod_keys with
    | .error e => .failure e
    | .ok none => .noData
    | .ok (some r) => .shown r

/-- Lines 22-33 of `app.py`: `format_hours`. `days = int(h // 24)` is the
floor of `h / 24` (float floor-division, already integral, so `int` is the
identity on it); `hours = int(h % 24)` truncates `h % 24 = h - 24*⌊h/24⌋`,
which is non-negative, so truncation is the floor. Non-zero components are
collected and joined with a space; `"0h"` is returned when both vanish. -/
def format_hours (h : ℚ) : String :=
  let days : ℤ := ⌊h / 24⌋
  let hours : ℤ := ⌊h - 24 * (⌊h / 24⌋ : ℚ)⌋
  let parts : List String :=
    (if days ≠ 0 then [toString days ++ "d"] else []) ++
    (if hours ≠ 0 then [toString hours ++ "h"] else [])
  if parts = [] then "0h" else String.intercalate " " parts

/-- The formatting rule as the spec words it: integer days = floor(hours/24),
integer remainder hours = hours mod 24 (truncated toward zero, which on the
non-negative remainder is the floor, i.e. `⌊h⌋ - 24*⌊h/24⌋`), zero-valued
components omitted, defaulting to `"0h"` when both components are zero. -/
def format_hours_spec (h : ℚ) : String :=
  let days : ℤ := ⌊h / 24⌋
  let remainder : ℤ := ⌊h⌋ - 24 * ⌊h / 24⌋
  let components : List String :=
    (if days = 0 then [] else [toString days ++ "d"]) ++
    (if remainder = 0 then [] else [toString remainder ++ "h"])
  if components = [] then "0h" else String.intercalate " " components

/-! ### Concrete datasets used by witnesses and counterexamples -/

/-- A small dataset in the shape of `rules.json`, mirroring the worked
scenario of the spec: cooked rice, refrigerated, base 72 hours, with a
`reheated_once` modifier of factor `0.5`. -/
def sample_rules : RulesDataset where
  foods := [("cooked_rice",
    { states := ["cooked"],
      storages := ["refrigerated", "room_temp"],
      shelf_life_hours := [("cooked", [("refrigerated", 72), ("room_temp", 6)])] })]
  modifiers := [("reheated_once", 0.5), ("hot_weather", 2)]
  sensory_flags := [("off_odor", "Off or sour odor")]

/-- A dataset with a long-lived pantry item whose base shelf life exceeds
the one-year ceiling of `24 * 365 = 8760` hours. -/
def longlife_rules : RulesDataset where
  foods := [("dried_beans",
    { states := ["raw"],
      storages := ["pantry"],
      shelf_life_hours := [("raw", [("pantry", 20000)])] })]
  modifiers := []
  sensory_flags := []

/-- A dataset whose modifier table carries a miscoded negative factor and a
zero factor, exercising the `if factor:` guard of the estimator. -/
def negmod_rules : RulesDataset where
  foods := [("cooked_rice",
    { states := ["cooked"],
      storages := ["refrigerated"],
      shelf_life_hours := [("cooked", [("refrigerated", 10)])] })]
  modifiers := [("miscoded", -2), ("zeroed", 0)]
  sensory_flags := []

/-! ### Unfolding lemmas -/

/-- Closed form of `compute_estimate` on the success path: once the food
resolves to `entry` and the two-level base lookup yields `b`, the result is
the record built from `est_hours = b * multiplier_of ds mods` exactly as on
lines 48-70 of `app.py`. -/
theorem compute_estimate_eq (ds : RulesDataset) (food state storage : String)
    (mods : List String) (entry : FoodEntry) (b : ℚ)
    (hf : ds.foods.lookup food = some entry)
    (hb : shelf_base entry state storage = some b) :
    compute_estimate ds food state storage mods =
      .ok (some
        ⟨b,
         if b ≤ 6 then b * multiplier_of ds mods * 0.5
           else b * multiplier_of ds mods * 0.75,
         if b * multiplier_of ds mods > 24 * 365 then (24 * 365 : ℚ)
           else b * multiplier_of ds mods,
         if (if b * multiplier_of ds mods > 24 * 365 then (24 * 365 : ℚ)
               else b * multiplier_of ds mods) ≤ 6 then "High perishability"
           else if (if b * multiplier_of ds mods > 24 * 365 then (24 * 365 : ℚ)
               else b * multiplier_of ds mods) ≤ 72 then "Moderate perishability"
           else "Low perishability"⟩) := by
  simp only [compute_estimate, hf, hb]

/-- The result of the worked scenario of the spec: cooked rice,
refrigerated, base 72 hours, reheated once. -/
def sample_result : EstimateResult := ⟨72, 27, 36, "Moderate perishability"⟩

/-- Evaluation of the estimator on the worked scenario of the spec. -/
theorem sample_estimate_eq :
    compute_estimate sample_rules "cooked_rice" "cooked" "refrigerated" ["reheated_once"] =
      .ok (some sample_result) := by
  rw [compute_estimate_eq sample_rules "cooked_rice" "cooked" "refrigerated"
    ["reheated_once"] _ 72 rfl rfl]
  norm_num [multiplier_of, mod_step, sample_rules, sample_result]

/-! ### Claims -/

/-- C1 counterexample: on a pantry item with base 20000 hours and no
modifiers, the estimator returns `lower_hours = 15000` but clamps
`upper_hours` to `8760`, so `lower_hours ≤ upper_hours` fails. -/
theorem c1_counterexample :
    compute_estimate longlife_rules "dried_beans" "raw" "pantry" [] =
      .ok (some ⟨20000, 15000, 8760, "Low perishability"⟩) ∧
    ¬ (15000 : ℚ) ≤ 8760 := by
  constructor
  · rw [compute_estimate_eq longlife_rules "dried_beans" "raw" "pantry" [] _ 20000 rfl rfl]
    norm_num [multiplier_of]
  · norm_num

/-- C1 (amended): for every food, state and storage with a defined
base_hours and every list of modifier keys, `upper_hours ≤ 24 * 365` always
holds, and `lower_hours ≤ upper_hours` holds provided the estimated hours
`base_hours * multiplier` lie between `0` and the `24 * 365` ceiling (the
clamp applies only to the upper bound, so an estimate beyond one year can
push the lower bound above the clamped upper bound). -/
theorem c1_window_bounds (ds : RulesDataset) (food state storage : String)
    (mods : List String) (entry : FoodEntry) (b : ℚ) (r : EstimateResult)
    (hf : ds.foods.lookup food = some entry)
    (hb : shelf_base entry state storage = some b)
    (hr : compute_estimate ds food state storage mods = .ok (some r)) :
    r.upper_hours ≤ 24 * 365 ∧
      (0 ≤ b * multiplier_of ds mods → b * multiplier_of ds mods ≤ 24 * 365 →
        r.lower_hours ≤ r.upper_hours) := by
  rw [compute_estimate_eq ds food state storage mods entry b hf hb] at hr
  simp only [Except.ok.injEq, Option.some.injEq] at hr
  subst hr
  constructor
  · dsimp only
    split_ifs with h
    · norm_num
    · linarith
  · intro h0 h1
    dsimp only
    split_ifs with h2 h3 <;> linarith

/-- C1 witness: the amended bounds instantiated on the worked scenario. -/
theorem c1_window_bounds_witness :
    sample_result.upper_hours ≤ 24 * 365 ∧
      sample_result.lower_hours ≤ sample_result.upper_hours := by
  have h := c1_window_bounds sample_rules "cooked_rice" "cooked" "refrigerated"
    ["reheated_once"] _ 72 sample_result rfl rfl sample_estimate_eq
  exact ⟨h.1, h.2 (by norm_num [multiplier_of, mod_step, sample_rules])
    (by norm_num [multiplier_of, mod_step, sample_rules])⟩

/-- C2: on the success path, `lower_hours` is `estimated_hours * 0.5` when
`base_hours ≤ 6` (the boundary at exactly 6 included) and
`estimated_hours * 0.75` when `base_hours > 6`, where `estimated_hours`
is `base_hours * multiplier`. -/
theorem c2_lower_factor (ds : RulesDataset) (food state storage : String)
    (mods : List String) (entry : FoodEntry) (b : ℚ) (r : EstimateResult)
    (hf : ds.foods.lookup food = some entry)
    (hb : shelf_base entry state storage = some b)
    (hr : compute_estimate ds food state storage mods = .ok (some r)) :
    (b ≤ 6 → r.lower_hours = b * multiplier_of ds mods * 0.5) ∧
    (6 < b → r.lower_hours = b * multiplier_of ds mods * 0.75) := by
  rw [compute_estimate_eq ds food state storage mods entry b hf hb] at hr
  simp only [Except.ok.injEq, Option.some.injEq] at hr
  subst hr
  constructor <;> intro h
  · dsimp only
    rw [if_pos h]
  · dsimp only
    rw [if_neg (by linarith)]

/-- C2 witness: on the worked scenario, base 72 > 6, so the lower bound is
`estimated_hours * 0.75 = 27`. -/
theorem c2_lower_factor_witness :
    sample_result.lower_hours = 72 * multiplier_of sample_rules ["reheated_once"] * 0.75 :=
  (c2_lower_factor sample_rules "cooked_rice" "cooked" "refrigerated" ["reheated_once"]
    _ 72 sample_result rfl rfl sample_estimate_eq).2 (by norm_num)

/-- C3: the risk tier of every returned result is determined by
`upper_hours` alone with the fixed thresholds: at most 6 hours is high
perishability, more than 6 and at most 72 is moderate, above 72 is low. -/
theorem c3_risk_tier (ds : RulesDataset) (food state storage : String)
    (mods : List String) (r : EstimateResult)
    (hr : compute_estimate ds food state storage mods = .ok (some r)) :
    (r.upper_hours ≤ 6 → r.risk = "High perishability") ∧
    (6 < r.upper_hours → r.upper_hours ≤ 72 → r.risk = "Moderate perishability") ∧
    (72 < r.upper_hours → r.risk = "Low perishability") := by
  cases hf : ds.foods.lookup food with
  | none => simp [compute_estimate, hf] at hr
  | some entry =>
    cases hb : shelf_base entry state storage with
    | none => simp [compute_estimate, hf, hb] at hr
    | some b =>
      rw [compute_estimate_eq ds food state storage mods entry b hf hb] at hr
      simp only [Except.ok.injEq, Option.some.injEq] at hr
      subst hr
      dsimp only
      generalize (if b * multiplier_of ds mods > 24 * 365 then (24 * 365 : ℚ)
        else b * multiplier_of ds mods) = U
      refine ⟨fun h => if_pos h, fun h1 h2 => ?_, fun h => ?_⟩
      · rw [if_neg (by linarith), if_pos h2]
      · rw [if_neg (by linarith), if_neg (by linarith)]

/-- C3 witness: on the worked scenario, the upper bound 36 falls in the
moderate tier. -/
theorem c3_risk_tier_witness : sample_result.risk = "Moderate perishability" :=
  (c3_risk_tier sample_rules "cooked_rice" "cooked" "refrigerated" ["reheated_once"]
    sample_result sample_estimate_eq).2.1 (by norm_num [sample_result])
    (by norm_num [sample_result])

/-- C4: whenever the list of selected sensory flag keys is non-empty, the
click handler short-circuits to the discard directive, whatever the food,
state, storage and modifiers are; the numeric path is never consulted. -/
theorem c4_sensory_short_circuit (ds : RulesDataset)
    (food state storage : String) (mods sensory : List String)
    (h : sensory ≠ []) :
    on_estimate_clicked ds food state storage mods sensory = .discard := by
  simp [on_estimate_clicked, h]

/-- C4 witness: a selected sensory flag forces the discard directive on the
worked scenario. -/
theorem c4_sensory_short_circuit_witness :
    on_estimate_clicked sample_rules "cooked_rice" "cooked" "refrigerated"
      ["reheated_once"] ["off_odor"] = .discard :=
  c4_sensory_short_circuit sample_rules "cooked_rice" "cooked" "refrigerated"
    ["reheated_once"] ["off_odor"] (by simp)

/-- C5: for a known food whose two-level shelf-life lookup misses at either
level, `compute_estimate` returns the not-available sentinel and raises no
exception. -/
theorem c5_not_available (ds : RulesDataset) (food state storage : String)
    (mods : List String) (entry : FoodEntry)
    (hf : ds.foods.lookup food = some entry)
    (hb : shelf_base entry state storage = none) :
    compute_estimate ds food state storage mods = .ok none := by
  simp [compute_estimate, hf, hb]

/-- C5 witness: cooked rice has no entry for the raw state, so the
estimator returns the sentinel. -/
theorem c5_not_available_witness :
    compute_estimate sample_rules "cooked_rice" "raw" "refrigerated" [] = .ok none :=
  c5_not_available sample_rules "cooked_rice" "raw" "refrigerated" [] _ rfl rfl

/-- C6: `compute_estimate` fails with the unknown-food error exactly when
the food key is absent from the foods mapping; for present keys this error
path is never taken. -/
theorem c6_unknown_food (ds : RulesDataset) (food state storage : String)
    (mods : List String) :
    compute_estimate ds food state storage mods = .error .unknownFood ↔
      ds.foods.lookup food = none := by
  cases hf : ds.foods.lookup food with
  | none => simp [compute_estimate, hf]
  | some entry =>
    cases hb : shelf_base entry state storage with
    | none => simp [compute_estimate, hf, hb]
    | some b => simp [compute_estimate, hf, hb]

/-- C7: the loading code fails with the dataset-load error exactly when the
source is unreadable, not parseable, or the parsed value lacks one of the
required top-level keys `foods`, `modifiers`, `sensory_flags` (a
non-object top-level value has no keys at all); otherwise it returns the
parsed dataset together with the three extracted mappings. -/
theorem c7_load_rules (src : LoadSource) :
    (load_rules src = .error .loadFailed ↔
      src = .unreadable ∨ src = .unparsable ∨
        ∃ j, src = .parsed j ∧
          ((j.getKey "foods").isNone ∨ (j.getKey "modifiers").isNone ∨
            (j.getKey "sensory_flags").isNone)) ∧
    (∀ d, load_rules src = .ok d →
      ∃ j, src = .parsed j ∧ d.rules = j ∧
        j.getKey "foods" = some d.foods ∧ j.getKey "modifiers" = some d.modifiers ∧
        j.getKey "sensory_flags" = some d.sensory_flags) := by
  cases src with
  | unreadable => simp [load_rules]
  | unparsable => simp [load_rules]
  | parsed j =>
    cases h1 : j.getKey "foods" <;> cases h2 : j.getKey "modifiers" <;>
      cases h3 : j.getKey "sensory_flags" <;> simp_all [load_rules]

/-- A well-formed parsed rules file with the three required keys. -/
def sample_json : Json :=
  .obj [("foods", .obj []), ("modifiers", .obj []), ("sensory_flags", .obj []),
        ("notes", .obj [("disclaimer", .str "Educational use only")])]

/-- The loader output on `sample_json`. -/
def sample_loaded : LoadedRules :=
  ⟨sample_json, .obj [], .obj [], .obj []⟩

/-- C7 witness: loading a well-formed parsed source succeeds and hands back
the parsed value with its three mappings. -/
theorem c7_load_rules_witness :
    ∃ j, LoadSource.parsed sample_json = .parsed j ∧ sample_loaded.rules = j ∧
      j.getKey "foods" = some sample_loaded.foods ∧
      j.getKey "modifiers" = some sample_loaded.modifiers ∧
      j.getKey "sensory_flags" = some sample_loaded.sensory_flags :=
  (c7_load_rules (.parsed sample_json)).2 sample_loaded rfl

/-- C8 counterexample: a negative modifier factor is truthy in Python, so
the `if factor:` guard multiplies it in: with base 10 hours and a factor of
-2 the estimator returns a negative window, not the no-op the claim
predicts. -/
theorem c8_counterexample :
    compute_estimate negmod_rules "cooked_rice" "cooked" "refrigerated" ["miscoded"] =
      .ok (some ⟨10, -15, -20, "High perishability"⟩) ∧
    multiplier_of negmod_rules ["miscoded"] = -2 ∧
    ¬ (0 : ℚ) ≤ -20 := by
  refine ⟨?_, ?_, by norm_num⟩
  · rw [compute_estimate_eq negmod_rules "cooked_rice" "cooked" "refrigerated"
      ["miscoded"] _ 10 rfl rfl]
    norm_num [multiplier_of, mod_step, negmod_rules]
  · norm_num [multiplier_of, mod_step, negmod_rules]

/-- C8 (amended): a modifier whose factor is zero is skipped by the
`if factor:` guard and contributes the no-op factor 1.0 (so a zero factor
cannot change the estimate), but a negative factor is truthy and is
multiplied into the estimate unchanged, so a negative factor can flip the
sign of the estimated window. -/
theorem c8_nonpositive_factor (ds : RulesDataset) (m food state storage : String)
    (mods : List String) :
    (ds.modifiers.lookup m = some 0 →
      compute_estimate ds food state storage (m :: mods) =
        compute_estimate ds food state storage mods) ∧
    (∀ f, ds.modifiers.lookup m = some f → f < 0 →
      multiplier_of ds [m] = f) := by
  constructor
  · intro hm
    have hmul : multiplier_of ds (m :: mods) = multiplier_of ds mods := by
      simp [multiplier_of, mod_step, hm]
    simp only [compute_estimate, hmul]
  · intro f hf hneg
    simp [multiplier_of, mod_step, hf, hneg.ne]

/-- C8 witness: the zero factor of `zeroed` leaves the estimate unchanged,
while the negative factor of `miscoded` lands in the multiplier as is. -/
theorem c8_nonpositive_factor_witness :
    compute_estimate negmod_rules "cooked_rice" "cooked" "refrigerated" ["zeroed"] =
      compute_estimate negmod_rules "cooked_rice" "cooked" "refrigerated" [] ∧
    multiplier_of negmod_rules ["miscoded"] = -2 :=
  ⟨(c8_nonpositive_factor negmod_rules "zeroed" "cooked_rice" "cooked" "refrigerated"
      []).1 rfl,
   (c8_nonpositive_factor negmod_rules "miscoded" "cooked_rice" "cooked" "refrigerated"
      []).2 (-2) rfl (by norm_num)⟩

/-- One step of the multiplier loop multiplies in the effective factor of
the key. -/
theorem mod_step_eq (ds : RulesDataset) (a : ℚ) (m : String) :
    mod_step ds a m = a * eff_factor ds m := by
  unfold mod_step eff_factor
  cases hm : ds.modifiers.lookup m with
  | none => simp
  | some f => by_cases hf : f ≠ 0 <;> simp [hf]

/-- The multiplier is the product of the effective factors of the selected
keys, one contribution per list occurrence. -/
theorem multiplier_of_eq_prod (ds : RulesDataset) (mods : List String) :
    multiplier_of ds mods = (mods.map (eff_factor ds)).prod := by
  have key : ∀ (l : List String) (a : ℚ),
      l.foldl (mod_step ds) a = a * (l.map (eff_factor ds)).prod := by
    intro l
    induction l with
    | nil => intro a; simp
    | cons x xs ih =>
      intro a
      simp only [List.foldl_cons, List.map_cons, List.prod_cons, mod_step_eq, ih]
      ring
  simpa using key mods 1

/-- C10: the multiplier is the product of the per-occurrence effective
factors with no deduplication, and in particular selecting a known modifier
twice squares its factor: with `[A, A]` the unclamped upper bound is
`base_hours * (factor_A * factor_A)`. -/
theorem c10_no_dedup (ds : RulesDataset) (mods : List String)
    (food state storage : String) (entry : FoodEntry) (b : ℚ) (A : String) (f : ℚ)
    (hf : ds.foods.lookup food = some entry)
    (hb : shelf_base entry state storage = some b)
    (hA : ds.modifiers.lookup A = some f) (hf0 : f ≠ 0)
    (hle : b * (f * f) ≤ 24 * 365) :
    multiplier_of ds mods = (mods.map (eff_factor ds)).prod ∧
    ∃ r, compute_estimate ds food state storage [A, A] = .ok (some r) ∧
      r.upper_hours = b * (f * f) := by
  refine ⟨multiplier_of_eq_prod ds mods, ?_⟩
  have hAA : multiplier_of ds [A, A] = f * f := by
    simp [multiplier_of, mod_step, hA, hf0]
  refine ⟨_, compute_estimate_eq ds food state storage [A, A] entry b hf hb, ?_⟩
  dsimp only
  rw [hAA, if_neg (not_lt.mpr hle)]

/-- C10 witness: selecting the `hot_weather` factor 2 twice multiplies the
base 72 hours by 4. -/
theorem c10_no_dedup_witness :
    multiplier_of sample_rules ["hot_weather", "hot_weather"] =
      ((["hot_weather", "hot_weather"].map (eff_factor sample_rules)).prod) ∧
    ∃ r, compute_estimate sample_rules "cooked_rice" "cooked" "refrigerated"
        ["hot_weather", "hot_weather"] = .ok (some r) ∧
      r.upper_hours = 72 * (2 * 2) :=
  c10_no_dedup sample_rules ["hot_weather", "hot_weather"] "cooked_rice" "cooked"
    "refrigerated" _ 72 "hot_weather" 2 rfl rfl rfl (by norm_num) (by norm_num)

/-- C9: for every non-negative number of hours, `format_hours` builds the
string described by the spec (days = floor(h/24), remainder = the floor of
h mod 24, zero components omitted, `"0h"` when both vanish), and it maps
the anchor inputs 0, 6, 24, 36 and 8760 to `"0h"`, `"6h"`, `"1d"`,
`"1d 12h"` and `"365d"`. -/
theorem c9_format_hours :
    (∀ h : ℚ, 0 ≤ h → format_hours h = format_hours_spec h) ∧
    format_hours 0 = "0h" ∧ format_hours 6 = "6h" ∧ format_hours 24 = "1d" ∧
    format_hours 36 = "1d 12h" ∧ format_hours 8760 = "365d" := by
  refine ⟨fun h h0 => ?_, ?_, ?_, ?_, ?_, ?_⟩
  · simp only [format_hours, format_hours_spec]
    have hsub : (⌊h - 24 * (⌊h / 24⌋ : ℚ)⌋ : ℤ) = ⌊h⌋ - 24 * ⌊h / 24⌋ := by
      rw [show h - 24 * (⌊h / 24⌋ : ℚ) = h - ((24 * ⌊h / 24⌋ : ℤ) : ℚ) by push_cast; ring,
        Int.floor_sub_int]
    rw [hsub]
    generalize ⌊h⌋ - 24 * ⌊h / 24⌋ = r
    generalize ⌊h / 24⌋ = d
    rcases eq_or_ne d 0 with h1 | h1 <;> rcases eq_or_ne r 0 with h2 | h2 <;>
      simp [h1, h2]
  · simp only [format_hours]; norm_num
  · simp only [format_hours]; norm_num; all_goals rfl
  · simp only [format_hours]; norm_num; all_goals rfl
  · simp only [format_hours]; norm_num; all_goals rfl
  · simp only [format_hours]; norm_num; all_goals rfl

/-- C9 witness: the source formatter and the spec formatter agree at 36. -/
theorem c9_format_hours_witness : format_hours 36 = format_hours_spec 36 :=
  c9_format_hours.1 36 (by norm_num)
